import Mathlib

set_option autoImplicit false

namespace TuxedoRs

/-! # Shallow embedding of tuxedo-rs core logic

Definitions below are translated from the repository sources
(`src/tailord/src/suspend.rs`, `src/tailor_client/src/lib.rs`,
`src/tailor_client/src/dbus/*.rs`, `src/tailor_client/tests/tests.rs`).
The daemon-side profile store and the `tailor_api` data types are not part
of the available sources (only their D-Bus declarations, client wrappers and
tests are), so those parts are modelled from the specification and marked
`Modelled from the spec:` in their doc comments. -/

/-! ## Suspend/Resume coordinator (src/tailord/src/suspend.rs)

The tokio broadcast channel is modelled by the sequence of results the
consumer's `receiver.recv().await` calls produce: either a delivered boolean
message or an error (channel closed or receiver lagged). -/

/-- Result of one `receiver.recv().await` call on the broadcast channel. -/
inductive RecvResult where
  | ok (value : Bool)
  | error
  deriving DecidableEq, Repr

/-- Observable outcome of a consumer call fed a finite prefix of recv results:
it either returned control to the caller (with the recv results it did not
consume), is still awaiting the next recv result, or is parked forever on
`pending::<()>().await` and will never return nor consume further results. -/
inductive ConsumerOutcome where
  | returned (rest : List RecvResult)
  | waiting
  | disabled
  deriving DecidableEq, Repr

/-- Embedding of `wait_for_wake_up` (suspend.rs lines 71-88): loop on
`receiver.recv()`; a `true` message is logged and ignored, a `false` message
returns control to the caller, a recv error is logged and the loop continues. -/
def wait_for_wake_up : List RecvResult → ConsumerOutcome
  | [] => .waiting
  | .ok true :: rest => wait_for_wake_up rest
  | .ok false :: rest => .returned rest
  | .error :: rest => wait_for_wake_up rest

/-- Embedding of `process_suspend` (suspend.rs lines 53-69): one
`receiver.recv()`; on `true` enter `wait_for_wake_up`, on `false` log a
warning and return immediately, on a recv error log and await
`pending::<()>()` forever. -/
def process_suspend : List RecvResult → ConsumerOutcome
  | [] => .waiting
  | .ok true :: rest => wait_for_wake_up rest
  | .ok false :: rest => .returned rest
  | .error :: _ => .disabled

/-- Result of one `try_wait_for_suspend` call as seen by `wait_for_suspend`:
`Ok(())` when the signal stream ended cleanly, `Err` on any zbus error. -/
inductive TryOutcome where
  | ok
  | error
  deriving DecidableEq, Repr

/-- Externally visible actions of the producer task. -/
inductive ProducerAction where
  | attempt
  | sleepSecs (n : Nat)
  deriving DecidableEq, Repr

/-- Actions of one iteration of the `for _ in 0..3` loop in
`wait_for_suspend` (suspend.rs lines 19-26): one connection attempt, and a
10 second `tokio::time::sleep` only when the attempt returned an error. -/
def iterationActions : TryOutcome → List ProducerAction
  | .ok => [.attempt]
  | .error => [.attempt, .sleepSecs 10]

/-- The `for _ in 0..3` loop of `wait_for_suspend`, unrolled over the
environment-supplied outcome of each `try_wait_for_suspend` call:
`suspendLoop tries i k` performs `k` more iterations starting at index `i`. -/
def suspendLoop (tries : Nat → TryOutcome) : Nat → Nat → List ProducerAction
  | _, 0 => []
  | i, Nat.succ k => iterationActions (tries i) ++ suspendLoop tries (i + 1) k

/-- Embedding of `wait_for_suspend` (suspend.rs lines 17-28): exactly three
loop iterations, then the function returns after logging the terminal
warning; the produced action list is the complete lifetime of the producer. -/
def wait_for_suspend (tries : Nat → TryOutcome) : List ProducerAction :=
  suspendLoop tries 0 3

/-- One item of the sleep-signal stream inside `try_wait_for_suspend`:
either a message (its boolean argument, and whether the broadcast
`sender.send` of that value succeeds) or a message whose `args()` accessor
fails, which aborts the function with `Err`. -/
inductive StreamItem where
  | msg (value : Bool) (sendOk : Bool)
  | badArgs
  deriving DecidableEq, Repr

/-- Embedding of `try_wait_for_suspend` (suspend.rs lines 30-51): the while
loop over the signal stream. Returns the list of publish attempts performed
(value sent, whether the send succeeded) and the function result. A failed
`sender.send` is only logged and the loop continues; a failed `args()`
propagates as `Err` via the `?` operator; stream end yields `Ok(())`. -/
def try_wait_for_suspend : List StreamItem → List (Bool × Bool) × TryOutcome
  | [] => ([], .ok)
  | .msg v sendOk :: rest =>
    let r := try_wait_for_suspend rest
    ((v, sendOk) :: r.1, r.2)
  | .badArgs :: _ => ([], .error)

/-! ## Profile store and global-profile coordinator

The daemon-side store implementation is not among the available sources
(only its D-Bus declaration in `src/tailor_client/src/dbus/profiles.rs` and
its observable behavior in `src/tailor_client/tests/tests.rs` are), so the
store and coordinator are modelled from the specification (spec.md sections
3, 4.1 and 4.2). -/

/-- Modelled from the spec: a `ProfileName` is a string, unique within one
store's namespace, equality being exact byte match (spec.md section 3). -/
abbrev ProfileName := String

/-- Modelled from the spec: error taxonomy of store operations -
`NotFound` and `Conflict` (spec.md section 7). -/
inductive StoreError where
  | notFound
  | conflict
  deriving DecidableEq, Repr

/-- Modelled from the spec: a `ProfileStore` is a mapping from `ProfileName`
to opaque payload `T`, represented as an association list with unique keys
(spec.md section 3). -/
abbrev ProfileStore (T : Type) := List (ProfileName × T)

/-- Modelled from the spec: `get_profile(name) -> Ok(data) | Err(NotFound)`
(spec.md section 4.1); `none` stands for `NotFound`. -/
def get_profile {T : Type} (store : ProfileStore T) (name : ProfileName) : Option T :=
  match store with
  | [] => none
  | p :: rest => if p.1 == name then some p.2 else get_profile rest name

/-- Modelled from the spec: `list_profiles()` returns the sequence of stored
names (spec.md section 4.1). -/
def list_profiles {T : Type} (store : ProfileStore T) : List ProfileName :=
  store.map Prod.fst

/-- Modelled from the spec: `add_profile(name, data)` inserts or overwrites
and never fails; a pre-existing value for `name` is silently replaced in
full (spec.md sections 3 and 4.1). -/
def add_profile {T : Type} (store : ProfileStore T) (name : ProfileName) (data : T) :
    ProfileStore T :=
  match store with
  | [] => [(name, data)]
  | p :: rest =>
    if p.1 == name then (name, data) :: rest else p :: add_profile rest name data

/-- Modelled from the spec: `remove_profile(name) -> Ok(()) | Err(NotFound)`
(spec.md section 4.1). -/
def remove_profile {T : Type} (store : ProfileStore T) (name : ProfileName) :
    Except StoreError (ProfileStore T) :=
  match get_profile store name with
  | none => .error .notFound
  | some _ => .ok (store.filter (fun p => !(p.1 == name)))

/-- Key replacement used by `rename_profile`: the entry keyed `old` is
re-keyed to `new`, all other entries are unchanged. -/
def renameKey {T : Type} (old new : ProfileName) (p : ProfileName × T) : ProfileName × T :=
  if p.1 == old then (new, p.2) else p

/-- Modelled from the spec: `rename_profile(old, new) ->
Ok(updated_list_of_names) | Err(NotFound if old absent) | Err(Conflict if
new already present)` (spec.md section 4.1). On success it returns the
updated name list together with the updated store. -/
def rename_profile {T : Type} (store : ProfileStore T) (old new : ProfileName) :
    Except StoreError (List ProfileName × ProfileStore T) :=
  match get_profile store old with
  | none => .error .notFound
  | some _ =>
    match get_profile store new with
    | some _ => .error .conflict
    | none =>
      let updated := store.map (renameKey old new)
      .ok (list_profiles updated, updated)

/-- Modelled from the spec: a global profile bundles a fan profile name and
a keyboard profile name (spec.md section 3, `GlobalProfile`); the client
sources call this type `ProfileInfo` (src/tailor_client/src/lib.rs). -/
structure ProfileInfo where
  fan : ProfileName
  keyboard : ProfileName
  deriving DecidableEq, Repr

/-- Modelled from the spec: the daemon state visible to the coordinator -
the fan store, the keyboard store (opaque string payloads), the global
profile store and the active profile name (spec.md sections 3 and 4.2). -/
structure TailorState where
  fanStore : ProfileStore String
  keyboardStore : ProfileStore String
  globalStore : ProfileStore ProfileInfo
  activeName : ProfileName
  deriving DecidableEq, Repr

/-- Cascade step for a fan rename: a global profile whose `.fan` equals
`old` has it replaced by `new`; keys and all other entries are untouched
(spec.md section 4.2). -/
def cascadeFan (old new : ProfileName) (p : ProfileName × ProfileInfo) :
    ProfileName × ProfileInfo :=
  if p.2.fan == old then (p.1, { p.2 with fan := new }) else p

/-- Cascade step for a keyboard rename, mirror image of `cascadeFan`. -/
def cascadeKeyboard (old new : ProfileName) (p : ProfileName × ProfileInfo) :
    ProfileName × ProfileInfo :=
  if p.2.keyboard == old then (p.1, { p.2 with keyboard := new }) else p

/-- Modelled from the spec: renaming a fan profile renames it in the fan
store and, as part of the same atomic operation, scans every global profile
and replaces any `.fan == old` with `.fan == new` (spec.md section 4.2).
The state is returned unchanged when the rename fails. -/
def rename_fan_profile (s : TailorState) (old new : ProfileName) :
    Except StoreError (List ProfileName) × TailorState :=
  match rename_profile s.fanStore old new with
  | .error e => (.error e, s)
  | .ok (names, fanStore) =>
    (.ok names,
      { s with
        fanStore := fanStore
        globalStore := s.globalStore.map (cascadeFan old new) })

/-- Modelled from the spec: renaming a keyboard profile, mirror image of
`rename_fan_profile` for the `.keyboard` references (spec.md section 4.2). -/
def rename_keyboard_profile (s : TailorState) (old new : ProfileName) :
    Except StoreError (List ProfileName) × TailorState :=
  match rename_profile s.keyboardStore old new with
  | .error e => (.error e, s)
  | .ok (names, keyboardStore) =>
    (.ok names,
      { s with
        keyboardStore := keyboardStore
        globalStore := s.globalStore.map (cascadeKeyboard old new) })

/-- Modelled from the spec: renaming a global profile renames it in the
global store; the active profile name follows the rename when the active
profile itself is renamed (spec.md section 3, `ActiveProfileName`). The
state is returned unchanged when the rename fails. -/
def rename_global_profile (s : TailorState) (old new : ProfileName) :
    Except StoreError (List ProfileName) × TailorState :=
  match rename_profile s.globalStore old new with
  | .error e => (.error e, s)
  | .ok (names, globalStore) =>
    (.ok names,
      { s with
        globalStore := globalStore
        activeName := if s.activeName == old then new else s.activeName })

/-- Reading a global profile out of the coordinator state
(`get_global_profile` at the service boundary). -/
def get_global_profile (s : TailorState) (name : ProfileName) : Option ProfileInfo :=
  get_profile s.globalStore name

/-! ## Client-side payload marshalling (src/tailor_client/src/lib.rs)

The client encodes each profile with `serde_json::to_string` on add and
decodes with `serde_json::from_str` on get. The `tailor_api` payload types
are not among the available sources, so they are modelled from the spec and
from their uses in `src/tailor_client` (tests and wrappers); the derived
serde encoding is modelled at the level of JSON values, the textual
rendering being external marshalling. -/

/-- JSON values, the target of the client-side encoding. -/
inductive Json where
  | num (n : Nat)
  | str (s : String)
  | arr (items : List Json)
  | obj (fields : List (String × Json))

/-- Modelled from the spec: an RGB color, as used by keyboard profiles
(`Color { r, g, b }` in src/tailor_client/src/lib.rs tests). -/
structure Color where
  r : Nat
  g : Nat
  b : Nat
  deriving DecidableEq, Repr

/-- Modelled from the spec: a color transition kind; only `Linear` is
visible in the available sources. -/
inductive ColorTransition where
  | linear
  deriving DecidableEq, Repr

/-- Modelled from the spec: one point of a keyboard color profile
(`ColorPoint { color, transition, transition_time }`). -/
structure ColorPoint where
  color : Color
  transition : ColorTransition
  transition_time : Nat
  deriving DecidableEq, Repr

/-- Modelled from the spec: a keyboard color-transition description
(`ColorProfile::Multiple(Vec<ColorPoint>)`). -/
inductive ColorProfile where
  | multiple (points : List ColorPoint)
  deriving DecidableEq, Repr

/-- Modelled from the spec: one point of a fan curve
(`FanProfilePoint { temp, fan }` in src/tailor_client/tests/tests.rs). -/
structure FanProfilePoint where
  temp : Nat
  fan : Nat
  deriving DecidableEq, Repr

/-- Derived serde encoding of `Color`, at the JSON-value level. -/
def Color.encode (c : Color) : Json :=
  .obj [("r", .num c.r), ("g", .num c.g), ("b", .num c.b)]

/-- Decoding of `Color` from a JSON value. -/
def Color.decode : Json → Option Color
  | .obj [("r", .num r), ("g", .num g), ("b", .num b)] => some ⟨r, g, b⟩
  | _ => none

/-- Derived serde encoding of `ColorTransition` (externally tagged unit
variant). -/
def ColorTransition.encode : ColorTransition → Json
  | .linear => .str "Linear"

/-- Decoding of `ColorTransition` from a JSON value. -/
def ColorTransition.decode : Json → Option ColorTransition
  | .str "Linear" => some .linear
  | _ => none

/-- Derived serde encoding of `ColorPoint`. -/
def ColorPoint.encode (p : ColorPoint) : Json :=
  .obj [("color", p.color.encode), ("transition", p.transition.encode),
    ("transition_time", .num p.transition_time)]

/-- Decoding of `ColorPoint` from a JSON value. -/
def ColorPoint.decode : Json → Option ColorPoint
  | .obj [("color", c), ("transition", t), ("transition_time", .num n)] =>
    match Color.decode c, ColorTransition.decode t with
    | some color, some tr => some ⟨color, tr, n⟩
    | _, _ => none
  | _ => none

/-- Decoding of a JSON list, element by element; fails when any element
fails. -/
def decodeList {α : Type} (dec : Json → Option α) : List Json → Option (List α)
  | [] => some []
  | j :: rest =>
    match dec j, decodeList dec rest with
    | some a, some l => some (a :: l)
    | _, _ => none

/-- Derived serde encoding of `ColorProfile` (externally tagged newtype
variant over a vector). -/
def ColorProfile.encode : ColorProfile → Json
  | .multiple points => .obj [("Multiple", .arr (points.map ColorPoint.encode))]

/-- Decoding of `ColorProfile` from a JSON value. -/
def ColorProfile.decode : Json → Option ColorProfile
  | .obj [("Multiple", .arr items)] => (decodeList ColorPoint.decode items).map .multiple
  | _ => none

/-- Derived serde encoding of `FanProfilePoint`. -/
def FanProfilePoint.encode (p : FanProfilePoint) : Json :=
  .obj [("temp", .num p.temp), ("fan", .num p.fan)]

/-- Decoding of `FanProfilePoint` from a JSON value. -/
def FanProfilePoint.decode : Json → Option FanProfilePoint
  | .obj [("temp", .num t), ("fan", .num f)] => some ⟨t, f⟩
  | _ => none

/-- Derived serde encoding of a fan profile (`Vec<FanProfilePoint>`). -/
def encodeFanProfile (points : List FanProfilePoint) : Json :=
  .arr (points.map FanProfilePoint.encode)

/-- Decoding of a fan profile from a JSON value. -/
def decodeFanProfile : Json → Option (List FanProfilePoint)
  | .arr items => decodeList FanProfilePoint.decode items
  | _ => none

/-- Derived serde encoding of `ProfileInfo`. -/
def ProfileInfo.encode (p : ProfileInfo) : Json :=
  .obj [("fan", .str p.fan), ("keyboard", .str p.keyboard)]

/-- Decoding of `ProfileInfo` from a JSON value. -/
def ProfileInfo.decode : Json → Option ProfileInfo
  | .obj [("fan", .str f), ("keyboard", .str k)] => some ⟨f, k⟩
  | _ => none

/-- Embedding of `TailorConnection::add_fan_profile`
(src/tailor_client/src/lib.rs lines 62-69): encode the profile, then store
it under `name` through the service's `add_profile`. -/
def add_fan_profile (store : ProfileStore Json) (name : ProfileName)
    (profile : List FanProfilePoint) : ProfileStore Json :=
  add_profile store name (encodeFanProfile profile)

/-- Embedding of `TailorConnection::get_fan_profile`
(src/tailor_client/src/lib.rs lines 71-74): fetch the stored payload for
`name` and decode it. -/
def get_fan_profile (store : ProfileStore Json) (name : ProfileName) :
    Option (List FanProfilePoint) :=
  (get_profile store name).bind decodeFanProfile

/-- Embedding of `TailorConnection::add_keyboard_profile`
(src/tailor_client/src/lib.rs lines 33-40). -/
def add_keyboard_profile (store : ProfileStore Json) (name : ProfileName)
    (profile : ColorProfile) : ProfileStore Json :=
  add_profile store name profile.encode

/-- Embedding of `TailorConnection::get_keyboard_profile`
(src/tailor_client/src/lib.rs lines 42-45). -/
def get_keyboard_profile (store : ProfileStore Json) (name : ProfileName) :
    Option ColorProfile :=
  (get_profile store name).bind ColorProfile.decode

/-- Embedding of `TailorConnection::add_global_profile`
(src/tailor_client/src/lib.rs lines 90-93). -/
def add_global_profile (store : ProfileStore Json) (name : ProfileName)
    (profile : ProfileInfo) : ProfileStore Json :=
  add_profile store name profile.encode

/-- Embedding of `TailorConnection::get_global_profile`
(src/tailor_client/src/lib.rs lines 95-98). -/
def get_global_profile_client (store : ProfileStore Json) (name : ProfileName) :
    Option ProfileInfo :=
  (get_profile store name).bind ProfileInfo.decode

/-! ## Theorems: suspend/resume coordinator -/

/-- While waiting for wake-up, every delivered `true` keeps the consumer
waiting and the first delivered `false` returns control with the remaining
events unconsumed. -/
theorem wait_for_wake_up_all_true (ts rest : List RecvResult)
    (h : ∀ e ∈ ts, e = RecvResult.ok true) :
    wait_for_wake_up (ts ++ RecvResult.ok false :: rest) = ConsumerOutcome.returned rest ∧
    wait_for_wake_up ts = ConsumerOutcome.waiting := by
  induction ts with
  | nil => exact ⟨rfl, rfl⟩
  | cons e ts ih =>
    have he : e = RecvResult.ok true := h e (List.mem_cons_self e ts)
    subst he
    have hts := ih fun e hmem => h e (List.mem_cons_of_mem _ hmem)
    simpa [wait_for_wake_up] using hts

/-- C4: a consumer that received a `true` event and is blocked waiting for
wake ignores every further `true` event (it stays blocked) and returns
control exactly once, at the first subsequent `false` event, leaving the
later events unconsumed. -/
theorem consumer_unblocks_once_per_suspend_wake_pair (ts rest : List RecvResult)
    (h : ∀ e ∈ ts, e = RecvResult.ok true) :
    process_suspend (RecvResult.ok true :: (ts ++ RecvResult.ok false :: rest)) =
      ConsumerOutcome.returned rest ∧
    process_suspend (RecvResult.ok true :: ts) = ConsumerOutcome.waiting := by
  have hts := wait_for_wake_up_all_true ts rest h
  simpa [process_suspend] using hts

/-- Witness for C4 with two consecutive `true` events before the `false`. -/
theorem consumer_unblocks_once_per_suspend_wake_pair_witness :
    process_suspend [RecvResult.ok true, RecvResult.ok true, RecvResult.ok false,
      RecvResult.error] = ConsumerOutcome.returned [RecvResult.error] ∧
    process_suspend [RecvResult.ok true, RecvResult.ok true] = ConsumerOutcome.waiting :=
  consumer_unblocks_once_per_suspend_wake_pair [RecvResult.ok true] [RecvResult.error]
    (by decide)

/-- C5: when the first recv result is an error (channel closed because the
producer gave up or was never started), the consumer is parked forever on
`pending()`: the call never returns and no later event is ever observed. -/
theorem consumer_disabled_on_closed_channel (rest : List RecvResult) :
    process_suspend (RecvResult.error :: rest) = ConsumerOutcome.disabled := rfl

/-- C9: a `false` (wake) event with no preceding suspend event makes
`process_suspend` return immediately to the caller without blocking. -/
theorem consumer_returns_on_spurious_wake (rest : List RecvResult) :
    process_suspend (RecvResult.ok false :: rest) = ConsumerOutcome.returned rest := rfl

/-- Each loop iteration of the producer performs exactly one connection
attempt. -/
theorem count_attempt_iterationActions (o : TryOutcome) :
    (iterationActions o).count ProducerAction.attempt = 1 := by
  cases o <;> rfl

/-- The producer's loop unrolled to its three iterations. -/
theorem wait_for_suspend_unfold (tries : Nat → TryOutcome) :
    wait_for_suspend tries =
      iterationActions (tries 0) ++ (iterationActions (tries 1) ++
        (iterationActions (tries 2) ++ [])) := rfl

/-- C3: the producer makes at most 3 connection attempts, and when all
three attempts fail it performs exactly three attempts each followed by a
fixed 10-second sleep and then stops for good (its action trace is
complete). -/
theorem producer_retries_bounded (tries : Nat → TryOutcome) :
    (wait_for_suspend tries).count ProducerAction.attempt ≤ 3 ∧
    (tries 0 = TryOutcome.error → tries 1 = TryOutcome.error → tries 2 = TryOutcome.error →
      wait_for_suspend tries =
        [ProducerAction.attempt, ProducerAction.sleepSecs 10, ProducerAction.attempt,
          ProducerAction.sleepSecs 10, ProducerAction.attempt, ProducerAction.sleepSecs 10]) := by
  constructor
  · rw [wait_for_suspend_unfold]
    simp [List.count_append, count_attempt_iterationActions]
  · intro h0 h1 h2
    rw [wait_for_suspend_unfold, h0, h1, h2]
    rfl

/-- Witness for C3: all three attempts fail. -/
theorem producer_retries_bounded_witness :
    (wait_for_suspend fun _ => TryOutcome.error).count ProducerAction.attempt ≤ 3 ∧
    wait_for_suspend (fun _ => TryOutcome.error) =
      [ProducerAction.attempt, ProducerAction.sleepSecs 10, ProducerAction.attempt,
        ProducerAction.sleepSecs 10, ProducerAction.attempt, ProducerAction.sleepSecs 10] :=
  ⟨(producer_retries_bounded fun _ => TryOutcome.error).1,
    (producer_retries_bounded fun _ => TryOutcome.error).2 rfl rfl rfl⟩

/-- C10: the producer's budget counts loop iterations, not failures - the
trace always holds exactly 3 attempts however many succeeded - and an
iteration whose subscription ended cleanly is followed immediately by the
next attempt, with no sleep in between. -/
theorem producer_budget_counts_iterations (tries : Nat → TryOutcome) :
    (wait_for_suspend tries).count ProducerAction.attempt = 3 ∧
    (tries 0 = TryOutcome.ok →
      ∃ rest, wait_for_suspend tries =
        ProducerAction.attempt :: ProducerAction.attempt :: rest) := by
  constructor
  · rw [wait_for_suspend_unfold]
    simp [List.count_append, count_attempt_iterationActions]
  · intro h0
    rw [wait_for_suspend_unfold, h0]
    cases h1 : tries 1 <;> exact ⟨_, rfl⟩

/-- Witness for C10: the first subscription ends cleanly. -/
theorem producer_budget_counts_iterations_witness :
    (wait_for_suspend fun _ => TryOutcome.ok).count ProducerAction.attempt = 3 ∧
    ∃ rest, wait_for_suspend (fun _ => TryOutcome.ok) =
      ProducerAction.attempt :: ProducerAction.attempt :: rest :=
  ⟨(producer_budget_counts_iterations fun _ => TryOutcome.ok).1,
    (producer_budget_counts_iterations fun _ => TryOutcome.ok).2 rfl⟩

/-- C8: publishing is best-effort - whatever the outcome of each
`sender.send` (second component of each pair), the producer attempts to
publish every received message in order and the receive loop ends with
`Ok`, a failed publish never terminating it or counting as a connection
failure. -/
theorem producer_publish_best_effort (msgs : List (Bool × Bool)) :
    try_wait_for_suspend (msgs.map fun p => StreamItem.msg p.1 p.2) =
      (msgs, TryOutcome.ok) := by
  induction msgs with
  | nil => rfl
  | cons p rest ih => simp [try_wait_for_suspend, ih]

/-! ## Theorems: profile store -/

/-- Reading back a just-added profile yields exactly the stored payload. -/
theorem get_profile_add_profile {T : Type} (store : ProfileStore T) (name : ProfileName)
    (data : T) : get_profile (add_profile store name data) name = some data := by
  induction store with
  | nil => simp [add_profile, get_profile]
  | cons p rest ih =>
    by_cases h : p.1 == name
    · simp [add_profile, h, get_profile]
    · simp [add_profile, h, get_profile, ih]

/-- Adding the same payload under the same name twice leaves the store
exactly as after the first add. -/
theorem add_profile_idem {T : Type} (store : ProfileStore T) (name : ProfileName)
    (data : T) :
    add_profile (add_profile store name data) name data = add_profile store name data := by
  induction store with
  | nil => simp [add_profile]
  | cons p rest ih =>
    by_cases h : p.1 == name
    · simp [add_profile, h]
    · simp [add_profile, h, ih]

/-- C7: `add_profile` is an upsert - it never fails (it is a total
function into the new store), a repeated add with identical arguments
leaves the store contents identical to the first add, and adding different
data under an existing name fully overwrites the old value. -/
theorem add_profile_upsert_idempotent_overwrite {T : Type} (store : ProfileStore T)
    (name : ProfileName) (d d2 : T) :
    add_profile (add_profile store name d) name d = add_profile store name d ∧
    get_profile (add_profile store name d) name = some d ∧
    get_profile (add_profile (add_profile store name d) name d2) name = some d2 :=
  ⟨add_profile_idem store name d, get_profile_add_profile store name d,
    get_profile_add_profile (add_profile store name d) name d2⟩

/-! ## Theorems: client marshalling round-trips -/

/-- Decoding inverts the encoding of `Color`. -/
theorem decode_encode_color (c : Color) : Color.decode c.encode = some c := rfl

/-- Decoding inverts the encoding of `ColorTransition`. -/
theorem decode_encode_colorTransition (t : ColorTransition) :
    ColorTransition.decode t.encode = some t := by
  cases t
  rfl

/-- Decoding inverts the encoding of `ColorPoint`. -/
theorem decode_encode_colorPoint (p : ColorPoint) : ColorPoint.decode p.encode = some p := by
  cases p with
  | mk color transition time =>
    cases transition
    rfl

/-- Decoding a list of encoded elements recovers the list, given a
pointwise inverse pair. -/
theorem decodeList_map_encode {α : Type} (dec : Json → Option α) (enc : α → Json)
    (h : ∀ a, dec (enc a) = some a) (l : List α) :
    decodeList dec (l.map enc) = some l := by
  induction l with
  | nil => rfl
  | cons a l ih => simp [decodeList, h, ih]

/-- Decoding inverts the encoding of `ColorProfile`. -/
theorem decode_encode_colorProfile (p : ColorProfile) :
    ColorProfile.decode p.encode = some p := by
  cases p with
  | multiple points =>
    simp [ColorProfile.encode, ColorProfile.decode,
      decodeList_map_encode ColorPoint.decode ColorPoint.encode decode_encode_colorPoint]

/-- Decoding inverts the encoding of `FanProfilePoint`. -/
theorem decode_encode_fanPoint (p : FanProfilePoint) :
    FanProfilePoint.decode p.encode = some p := rfl

/-- Decoding inverts the encoding of a fan profile. -/
theorem decodeFanProfile_encode (points : List FanProfilePoint) :
    decodeFanProfile (encodeFanProfile points) = some points := by
  simp [encodeFanProfile, decodeFanProfile,
    decodeList_map_encode FanProfilePoint.decode FanProfilePoint.encode
      decode_encode_fanPoint]

/-- Decoding inverts the encoding of `ProfileInfo`. -/
theorem decode_encode_profileInfo (p : ProfileInfo) : ProfileInfo.decode p.encode = some p := rfl

/-- C6: for every profile kind (fan, keyboard, global), adding a profile
and reading it back returns the profile exactly - the store round-trips
the payload and the client-side encode on add and decode on get are
mutually inverse on every representable profile value. -/
theorem add_get_profile_roundtrip (store : ProfileStore Json) (name : ProfileName)
    (fanProfile : List FanProfilePoint) (keyboardProfile : ColorProfile)
    (globalProfile : ProfileInfo) :
    get_fan_profile (add_fan_profile store name fanProfile) name = some fanProfile ∧
    get_keyboard_profile (add_keyboard_profile store name keyboardProfile) name =
      some keyboardProfile ∧
    get_global_profile_client (add_global_profile store name globalProfile) name =
      some globalProfile := by
  refine ⟨?_, ?_, ?_⟩ <;>
    simp [get_fan_profile, add_fan_profile, get_keyboard_profile, add_keyboard_profile,
      get_global_profile_client, add_global_profile, get_profile_add_profile,
      decodeFanProfile_encode, decode_encode_colorProfile, decode_encode_profileInfo]

/-! ## Theorems: rename error taxonomy and atomicity -/

/-- C2: `rename_profile(old, new)` on the global store returns the updated
list of names on success, `NotFound` when `old` is absent and `Conflict`
when `new` is already present; a `Conflict` leaves the whole state - in
particular the contents stored under `old` and under `new` - unchanged,
and a fan-store `Conflict` likewise leaves the state unchanged, so no
cascading reference update is visible to subsequent reads. -/
theorem rename_profile_error_taxonomy_atomic (s : TailorState) (old new : ProfileName) :
    (get_profile s.globalStore old = none →
      rename_global_profile s old new = (.error StoreError.notFound, s)) ∧
    (∀ d d2, get_profile s.globalStore old = some d →
      get_profile s.globalStore new = some d2 →
      rename_global_profile s old new = (.error StoreError.conflict, s) ∧
      get_profile (rename_global_profile s old new).2.globalStore old = some d ∧
      get_profile (rename_global_profile s old new).2.globalStore new = some d2) ∧
    (∀ d, get_profile s.globalStore old = some d → get_profile s.globalStore new = none →
      ∃ st, rename_global_profile s old new = (.ok (list_profiles st.globalStore), st)) ∧
    (∀ d d2, get_profile s.fanStore old = some d → get_profile s.fanStore new = some d2 →
      rename_fan_profile s old new = (.error StoreError.conflict, s)) := by
  refine ⟨?_, ?_, ?_, ?_⟩
  · intro h
    simp [rename_global_profile, rename_profile, h]
  · intro d d2 h1 h2
    have hc : rename_global_profile s old new = (.error StoreError.conflict, s) := by
      simp [rename_global_profile, rename_profile, h1, h2]
    exact ⟨hc, by rw [hc]; exact h1, by rw [hc]; exact h2⟩
  · intro d h1 h2
    refine ⟨{ s with
        globalStore := s.globalStore.map (renameKey old new)
        activeName := if s.activeName == old then new else s.activeName }, ?_⟩
    simp [rename_global_profile, rename_profile, h1, h2, list_profiles]
  · intro d d2 h1 h2
    simp [rename_fan_profile, rename_profile, h1, h2]

/-- Witness for C2: a concrete state exercising the not-found, conflict,
success and fan-conflict branches. -/
theorem rename_profile_error_taxonomy_atomic_witness :
    rename_global_profile
        ⟨[("a", "p"), ("b", "q")], [], [("a", ⟨"a", "k"⟩), ("b", ⟨"b", "k"⟩)], "a"⟩
        "z" "b" =
      (.error StoreError.notFound,
        ⟨[("a", "p"), ("b", "q")], [], [("a", ⟨"a", "k"⟩), ("b", ⟨"b", "k"⟩)], "a"⟩) ∧
    rename_global_profile
        ⟨[("a", "p"), ("b", "q")], [], [("a", ⟨"a", "k"⟩), ("b", ⟨"b", "k"⟩)], "a"⟩
        "a" "b" =
      (.error StoreError.conflict,
        ⟨[("a", "p"), ("b", "q")], [], [("a", ⟨"a", "k"⟩), ("b", ⟨"b", "k"⟩)], "a"⟩) ∧
    (∃ st, rename_global_profile
        ⟨[("a", "p"), ("b", "q")], [], [("a", ⟨"a", "k"⟩), ("b", ⟨"b", "k"⟩)], "a"⟩
        "a" "c" =
      (.ok (list_profiles st.globalStore), st)) ∧
    rename_fan_profile
        ⟨[("a", "p"), ("b", "q")], [], [("a", ⟨"a", "k"⟩), ("b", ⟨"b", "k"⟩)], "a"⟩
        "a" "b" =
      (.error StoreError.conflict,
        ⟨[("a", "p"), ("b", "q")], [], [("a", ⟨"a", "k"⟩), ("b", ⟨"b", "k"⟩)], "a"⟩) :=
  ⟨(rename_profile_error_taxonomy_atomic
      ⟨[("a", "p"), ("b", "q")], [], [("a", ⟨"a", "k"⟩), ("b", ⟨"b", "k"⟩)], "a"⟩
      "z" "b").1 rfl,
    ((rename_profile_error_taxonomy_atomic
      ⟨[("a", "p"), ("b", "q")], [], [("a", ⟨"a", "k"⟩), ("b", ⟨"b", "k"⟩)], "a"⟩
      "a" "b").2.1 ⟨"a", "k"⟩ ⟨"b", "k"⟩ rfl rfl).1,
    (rename_profile_error_taxonomy_atomic
      ⟨[("a", "p"), ("b", "q")], [], [("a", ⟨"a", "k"⟩), ("b", ⟨"b", "k"⟩)], "a"⟩
      "a" "c").2.2.1 ⟨"a", "k"⟩ rfl rfl,
    (rename_profile_error_taxonomy_atomic
      ⟨[("a", "p"), ("b", "q")], [], [("a", ⟨"a", "k"⟩), ("b", ⟨"b", "k"⟩)], "a"⟩
      "a" "b").2.2.2 "p" "q" rfl rfl⟩

/-! ## Theorems: rename cascade -/

/-- After re-keying `old` to `new`, the payload found under `new` is the
payload that was under `old`, provided `new` was absent. -/
theorem get_profile_map_renameKey_new {T : Type} (old new : ProfileName)
    (store : ProfileStore T) (h : get_profile store new = none) :
    get_profile (store.map (renameKey old new)) new = get_profile store old := by
  induction store with
  | nil => rfl
  | cons p rest ih =>
    obtain ⟨k, v⟩ := p
    rw [get_profile] at h
    by_cases hn : k == new
    · rw [if_pos hn] at h
      exact Option.noConfusion h
    · rw [if_neg hn] at h
      by_cases ho : k == old
      · simp [renameKey, ho, get_profile]
      · simp [renameKey, ho, hn, get_profile, ih h]

/-- After re-keying `old` to a distinct `new`, nothing is found under
`old` any more. -/
theorem get_profile_map_renameKey_old {T : Type} (old new : ProfileName)
    (store : ProfileStore T) (hne : new ≠ old) :
    get_profile (store.map (renameKey old new)) old = none := by
  induction store with
  | nil => rfl
  | cons p rest ih =>
    obtain ⟨k, v⟩ := p
    by_cases ho : k == old
    · simp [renameKey, ho, get_profile, hne, ih]
    · simp [renameKey, ho, get_profile, ih]

/-- Re-keying `old` to `new` and back is the identity on a store in which
`new` was absent. -/
theorem map_renameKey_roundtrip {T : Type} (old new : ProfileName)
    (store : ProfileStore T) (h : get_profile store new = none) :
    (store.map (renameKey old new)).map (renameKey new old) = store := by
  induction store with
  | nil => rfl
  | cons p rest ih =>
    obtain ⟨k, v⟩ := p
    rw [get_profile] at h
    by_cases hn : k == new
    · rw [if_pos hn] at h
      exact Option.noConfusion h
    · rw [if_neg hn] at h
      by_cases ho : k == old
      · have hk : k = old := by simpa using ho
        subst hk
        simp [renameKey, hn, ih h]
      · simp [renameKey, hn, ho, ih h]

/-- The fan cascade rewrites the `.fan` field of the profile found under
any name, and touches nothing else. -/
theorem get_profile_map_cascadeFan (old new name : ProfileName)
    (store : ProfileStore ProfileInfo) :
    get_profile (store.map (cascadeFan old new)) name =
      (get_profile store name).map
        (fun g => if g.fan == old then { g with fan := new } else g) := by
  induction store with
  | nil => rfl
  | cons p rest ih =>
    obtain ⟨k, g⟩ := p
    by_cases hf : g.fan == old
    · have hf2 : g.fan = old := by simpa using hf
      by_cases hk : k == name
      · simp [cascadeFan, hk, hf, get_profile, hf2]
      · simp [cascadeFan, hk, hf, get_profile, hf2, ih]
    · have hf2 : ¬g.fan = old := by simpa using hf
      by_cases hk : k == name
      · simp [cascadeFan, hk, hf, get_profile, hf2]
      · simp [cascadeFan, hk, hf, get_profile, hf2, ih]

/-- The keyboard cascade rewrites the `.keyboard` field of the profile
found under any name, and touches nothing else. -/
theorem get_profile_map_cascadeKeyboard (old new name : ProfileName)
    (store : ProfileStore ProfileInfo) :
    get_profile (store.map (cascadeKeyboard old new)) name =
      (get_profile store name).map
        (fun g => if g.keyboard == old then { g with keyboard := new } else g) := by
  induction store with
  | nil => rfl
  | cons p rest ih =>
    obtain ⟨k, g⟩ := p
    by_cases hf : g.keyboard == old
    · have hf2 : g.keyboard = old := by simpa using hf
      by_cases hk : k == name
      · simp [cascadeKeyboard, hk, hf, get_profile, hf2]
      · simp [cascadeKeyboard, hk, hf, get_profile, hf2, ih]
    · have hf2 : ¬g.keyboard = old := by simpa using hf
      by_cases hk : k == name
      · simp [cascadeKeyboard, hk, hf, get_profile, hf2]
      · simp [cascadeKeyboard, hk, hf, get_profile, hf2, ih]

/-- Cascading `.fan` from `old` to `new` and back is the identity when no
global profile referenced `new` beforehand. -/
theorem map_cascadeFan_roundtrip (old new : ProfileName)
    (store : ProfileStore ProfileInfo) (h : ∀ p ∈ store, p.2.fan ≠ new) :
    (store.map (cascadeFan old new)).map (cascadeFan new old) = store := by
  induction store with
  | nil => rfl
  | cons p rest ih =>
    obtain ⟨k, gf, gk⟩ := p
    have hg : gf ≠ new := by simpa using h (k, ⟨gf, gk⟩) (List.mem_cons_self _ _)
    have hrest := ih fun q hq => h q (List.mem_cons_of_mem _ hq)
    by_cases hf : gf == old
    · have hk : gf = old := by simpa using hf
      subst hk
      simp [cascadeFan, hrest]
    · simp [cascadeFan, hf, hg, hrest]

/-- Cascading `.keyboard` from `old` to `new` and back is the identity
when no global profile referenced `new` beforehand. -/
theorem map_cascadeKeyboard_roundtrip (old new : ProfileName)
    (store : ProfileStore ProfileInfo) (h : ∀ p ∈ store, p.2.keyboard ≠ new) :
    (store.map (cascadeKeyboard old new)).map (cascadeKeyboard new old) = store := by
  induction store with
  | nil => rfl
  | cons p rest ih =>
    obtain ⟨k, gf, gk⟩ := p
    have hg : gk ≠ new := by simpa using h (k, ⟨gf, gk⟩) (List.mem_cons_self _ _)
    have hrest := ih fun q hq => h q (List.mem_cons_of_mem _ hq)
    by_cases hf : gk == old
    · have hk : gk = old := by simpa using hf
      subst hk
      simp [cascadeKeyboard, hrest]
    · simp [cascadeKeyboard, hf, hg, hrest]

/-- C1 counterexample: with fan store `{"x"}` and global profiles
`g1 = {fan: "x"}` and `g2 = {fan: "y"}` (a dangling reference, since `"y"`
is not in the fan store), both sanctioned renames `"x" -> "y"` and
`"y" -> "x"` succeed, yet `g2` ends as `{fan: "x"}`: the composition of
the two renames is not the identity on every global profile. -/
theorem rename_cascade_roundtrip_counterexample :
    (rename_fan_profile
        ⟨[("x", "p")], [], [("g1", ⟨"x", "k"⟩), ("g2", ⟨"y", "k"⟩)], "g1"⟩ "x" "y").1 =
      .ok ["y"] ∧
    (rename_fan_profile
        (rename_fan_profile
          ⟨[("x", "p")], [], [("g1", ⟨"x", "k"⟩), ("g2", ⟨"y", "k"⟩)], "g1"⟩ "x" "y").2
        "y" "x").1 = .ok ["x"] ∧
    get_global_profile
        ⟨[("x", "p")], [], [("g1", ⟨"x", "k"⟩), ("g2", ⟨"y", "k"⟩)], "g1"⟩ "g2" =
      some ⟨"y", "k"⟩ ∧
    get_global_profile
        (rename_fan_profile
          (rename_fan_profile
            ⟨[("x", "p")], [], [("g1", ⟨"x", "k"⟩), ("g2", ⟨"y", "k"⟩)], "g1"⟩ "x" "y").2
          "y" "x").2 "g2" = some ⟨"x", "k"⟩ ∧
    get_global_profile
        (rename_fan_profile
          (rename_fan_profile
            ⟨[("x", "p")], [], [("g1", ⟨"x", "k"⟩), ("g2", ⟨"y", "k"⟩)], "g1"⟩ "x" "y").2
          "y" "x").2 "g2" ≠
      get_global_profile
        ⟨[("x", "p")], [], [("g1", ⟨"x", "k"⟩), ("g2", ⟨"y", "k"⟩)], "g1"⟩ "g2" := by
  refine ⟨rfl, rfl, rfl, rfl, ?_⟩
  decide

/-- C1 (amended): renaming fan profile `x` to `y` through the sanctioned
rename rewrites every global `.fan == x` reference to `y` (and leaves the
other global profiles untouched), and renaming `y` back to `x` restores
the whole state exactly, provided no global profile's `.fan` already
equals the intermediate name `y`; respectively for `.keyboard`. -/
theorem rename_cascade_keeps_references (s : TailorState) (x y : ProfileName) :
    ((get_profile s.fanStore x).isSome = true → get_profile s.fanStore y = none →
      (∀ p ∈ s.globalStore, p.2.fan ≠ y) →
      ∃ names st, rename_fan_profile s x y = (.ok names, st) ∧
        (∀ n g, get_profile s.globalStore n = some g →
          get_global_profile st n =
            some (if g.fan == x then { g with fan := y } else g)) ∧
        (rename_fan_profile st y x).2 = s) ∧
    ((get_profile s.keyboardStore x).isSome = true → get_profile s.keyboardStore y = none →
      (∀ p ∈ s.globalStore, p.2.keyboard ≠ y) →
      ∃ names st, rename_keyboard_profile s x y = (.ok names, st) ∧
        (∀ n g, get_profile s.globalStore n = some g →
          get_global_profile st n =
            some (if g.keyboard == x then { g with keyboard := y } else g)) ∧
        (rename_keyboard_profile st y x).2 = s) := by
  constructor
  · intro hx hy hg
    obtain ⟨fx, hfx⟩ := Option.isSome_iff_exists.mp hx
    have hyx : y ≠ x := by
      intro he
      rw [he, hfx] at hy
      exact Option.noConfusion hy
    refine ⟨list_profiles (s.fanStore.map (renameKey x y)),
      { s with fanStore := s.fanStore.map (renameKey x y)
               globalStore := s.globalStore.map (cascadeFan x y) }, ?_, ?_, ?_⟩
    · simp [rename_fan_profile, rename_profile, hfx, hy]
    · intro n g hng
      simp [get_global_profile, get_profile_map_cascadeFan, hng]
    · have hgy : get_profile (s.fanStore.map (renameKey x y)) y = some fx := by
        rw [get_profile_map_renameKey_new x y s.fanStore hy, hfx]
      have hgx : get_profile (s.fanStore.map (renameKey x y)) x = none :=
        get_profile_map_renameKey_old x y s.fanStore hyx
      simp only [rename_fan_profile, rename_profile, hgy, hgx]
      rw [map_renameKey_roundtrip x y s.fanStore hy,
        map_cascadeFan_roundtrip x y s.globalStore hg]
  · intro hx hy hg
    obtain ⟨fx, hfx⟩ := Option.isSome_iff_exists.mp hx
    have hyx : y ≠ x := by
      intro he
      rw [he, hfx] at hy
      exact Option.noConfusion hy
    refine ⟨list_profiles (s.keyboardStore.map (renameKey x y)),
      { s with keyboardStore := s.keyboardStore.map (renameKey x y)
               globalStore := s.globalStore.map (cascadeKeyboard x y) }, ?_, ?_, ?_⟩
    · simp [rename_keyboard_profile, rename_profile, hfx, hy]
    · intro n g hng
      simp [get_global_profile, get_profile_map_cascadeKeyboard, hng]
    · have hgy : get_profile (s.keyboardStore.map (renameKey x y)) y = some fx := by
        rw [get_profile_map_renameKey_new x y s.keyboardStore hy, hfx]
      have hgx : get_profile (s.keyboardStore.map (renameKey x y)) x = none :=
        get_profile_map_renameKey_old x y s.keyboardStore hyx
      simp only [rename_keyboard_profile, rename_profile, hgy, hgx]
      rw [map_renameKey_roundtrip x y s.keyboardStore hy,
        map_cascadeKeyboard_roundtrip x y s.globalStore hg]

/-- Witness for C1 (amended) on a concrete state holding fan profile
`"x"`, keyboard profile `"x"` and one global profile referencing both. -/
theorem rename_cascade_keeps_references_witness :
    (∃ names st,
      rename_fan_profile ⟨[("x", "p")], [("x", "q")], [("g1", ⟨"x", "x"⟩)], "g1"⟩ "x" "y" =
        (.ok names, st) ∧
      (∀ n g, get_profile [("g1", (⟨"x", "x"⟩ : ProfileInfo))] n = some g →
        get_global_profile st n =
          some (if g.fan == "x" then { g with fan := "y" } else g)) ∧
      (rename_fan_profile st "y" "x").2 =
        ⟨[("x", "p")], [("x", "q")], [("g1", ⟨"x", "x"⟩)], "g1"⟩) ∧
    (∃ names st,
      rename_keyboard_profile
          ⟨[("x", "p")], [("x", "q")], [("g1", ⟨"x", "x"⟩)], "g1"⟩ "x" "y" =
        (.ok names, st) ∧
      (∀ n g, get_profile [("g1", (⟨"x", "x"⟩ : ProfileInfo))] n = some g →
        get_global_profile st n =
          some (if g.keyboard == "x" then { g with keyboard := "y" } else g)) ∧
      (rename_keyboard_profile st "y" "x").2 =
        ⟨[("x", "p")], [("x", "q")], [("g1", ⟨"x", "x"⟩)], "g1"⟩) :=
  ⟨(rename_cascade_keeps_references
      ⟨[("x", "p")], [("x", "q")], [("g1", ⟨"x", "x"⟩)], "g1"⟩ "x" "y").1
      rfl rfl (by decide),
    (rename_cascade_keeps_references
      ⟨[("x", "p")], [("x", "q")], [("g1", ⟨"x", "x"⟩)], "g1"⟩ "x" "y").2
      rfl rfl (by decide)⟩

end TuxedoRs
